import Mathlib

/-!
Shallow embedding of `src/lib/thingspeak.py` (micropython-thingspeak).

Byte strings are modelled as `List Char` (the replies and requests are ASCII).
Python `dict` iteration order is insertion order, and dict construction from a
list lets a later duplicate key win; both facts are reflected below.
-/

namespace ThingSpeak

/-- Convert a Lean string literal to the `List Char` byte-string model. -/
def toChars (s : String) : List Char := s.data

/-- All indices `i` of `s` at which `sep` occurs as a contiguous sublist,
in increasing order. -/
def occIndices (sep s : List Char) : List Nat :=
  (List.range (s.length + 1)).filter (fun i => (s.drop i).take sep.length == sep)

/-- Python `s.split(sep, 1)[0]`: the part of `s` before the first occurrence
of `sep`, or all of `s` when `sep` does not occur. -/
def splitBeforeFirst (sep s : List Char) : List Char :=
  match (occIndices sep s).head? with
  | none => s
  | some i => s.take i

/-- Python `s.rsplit(sep, 1)[-1]`: the part of `s` after the last (rightmost)
occurrence of `sep`, or all of `s` when `sep` does not occur. -/
def rsplitLastTail (sep s : List Char) : List Char :=
  match (occIndices sep s).getLast? with
  | none => s
  | some i => s.drop (i + sep.length)

/-- Python `s.split(sep)` for a one-byte separator: splits at every occurrence
and keeps empty parts, so the result is never the empty list. -/
def splitOnChar (c : Char) : List Char → List (List Char)
  | [] => [[]]
  | x :: xs =>
    match splitOnChar c xs with
    | [] => [[]]
    | h :: t => if x = c then [] :: h :: t else (x :: h) :: t

/-- ASCII whitespace stripped by Python `int()` before parsing. -/
def isPyWs (c : Char) : Bool :=
  c = ' ' || c = '\t' || c = '\n' || c = '\r' || c = '\x0b' || c = '\x0c'

/-- Strip leading and trailing Python whitespace. -/
def stripPyWs (s : List Char) : List Char :=
  ((s.dropWhile isPyWs).reverse.dropWhile isPyWs).reverse

/-- Decimal value of a digit string. -/
def digitsToNat (ds : List Char) : Nat :=
  ds.foldl (fun a c => a * 10 + (c.toNat - 48)) 0

/-- Python `int(bytes)`: strips ASCII whitespace, then an optional sign
followed by a non-empty run of decimal digits; `none` models `ValueError`.
(CPython also accepts underscore digit separators; MicroPython, the primary
target runtime, does not, and that variant is not modelled.) -/
def pyInt (s : List Char) : Option Int :=
  match stripPyWs s with
  | [] => none
  | c :: rest =>
    if c = '-' then
      if rest ≠ [] ∧ rest.all Char.isDigit then some (-(digitsToNat rest : Int)) else none
    else if c = '+' then
      if rest ≠ [] ∧ rest.all Char.isDigit then some (digitsToNat rest) else none
    else
      if (c :: rest).all Char.isDigit then some (digitsToNat (c :: rest)) else none

/-- The separator `\r\n`. -/
def crlf : List Char := ['\r', '\n']

/-- The header/body separator `\r\n\r\n`. -/
def headerBodySep : List Char := ['\r', '\n', '\r', '\n']

/-- Python `reply.split(b'\r\n', 1)[0].split(b' ')[1]`: the second
space-separated token of the first line; `none` models the `IndexError`
raised when the first line contains no space. -/
def statusTok (reply : List Char) : Option (List Char) :=
  (splitOnChar ' ' (splitBeforeFirst crlf reply))[1]?

/-- Python `reply.rsplit(b'\r\n\r\n', 1)[-1]`: the text after the last
header/body separator, or the whole reply when the separator is absent. -/
def bodyTok (reply : List Char) : List Char :=
  rsplitLastTail headerBodySep reply

/-- The exceptions the `try` block of `_parse_reply` can raise. -/
inductive PyExc where
  | indexError
  | valueError
  deriving DecidableEq, Repr

/-- The `try` block of `_ProtoWeb._parse_reply`: parse the status code from
the first line (IndexError when the token is missing, ValueError when it is
not an integer); on status 200 parse the body as an integer (ValueError when
it is not one); on any other status leave the initial count `-1`. -/
def parseReplyTry (reply : List Char) : Except PyExc Int :=
  match statusTok reply with
  | none => Except.error PyExc.indexError
  | some tok =>
    match pyInt tok with
    | none => Except.error PyExc.valueError
    | some status =>
      if status = 200 then
        match pyInt (bodyTok reply) with
        | none => Except.error PyExc.valueError
        | some n => Except.ok n
      else
        Except.ok (-1)

/-- `_ProtoWeb._parse_reply`: `messages_count` starts at
`MESSAGE_COUNT_ON_ERROR_FROM_API = -1`; an `IndexError` leaves it at `-1`,
a `ValueError` sets it to `0`, otherwise the `try` block's result is
returned. -/
def parse_reply (reply : List Char) : Int :=
  match parseReplyTry reply with
  | Except.ok n => n
  | Except.error PyExc.indexError => -1
  | Except.error PyExc.valueError => 0

/-- Rightmost index of `f` in `l`, or `none` when absent. This is the value
stored for key `f` by a Python dict comprehension over the indexed list:
a later duplicate key overwrites an earlier one. -/
def lastIndexOf (f : List Char) : List (List Char) → Option Nat
  | [] => none
  | x :: xs =>
    match lastIndexOf f xs with
    | some i => some (i + 1)
    | none => if x = f then some 0 else none

/-- A channel definition: `Channel.__init__` keeps the name, the write key
and the declared field-name list (whose dict `self.fields` maps the name at
0-based index `i` to the slot string `field` followed by `i + 1`). -/
structure Channel where
  name : List Char
  write_key : List Char
  fieldNames : List (List Char)
  deriving DecidableEq, Repr

/-- The slot identifier for 0-based declaration index `i`:
the characters of `field` followed by the decimal digits of `i + 1`. -/
def fieldSlot (i : Nat) : List Char :=
  toChars "field" ++ Nat.toDigits 10 (i + 1)

/-- `Channel.get_field_id`: look `f` up in `self.fields`; `none` models the
`KeyError` for an absent key (the caller guards against it). -/
def get_field_id (ch : Channel) (f : List Char) : Option (List Char) :=
  (lastIndexOf f ch.fieldNames).map fieldSlot

/-- The error taxonomy: each constructor stands for one distinct
`ThingSpeakError` message template of the source (plus the propagated
network-failure case, which the source leaves to the socket layer). -/
inductive TSError where
  | emptyMeasurementSet (channelName : List Char)
  | unknownField (channelName fieldName : List Char)
  | unknownChannel (channelName : List Char)
  | transportError
  deriving DecidableEq, Repr

/-- The loop of `_make_http_data`: one `slot=value` item per entry of `data`
in iteration (insertion) order, raising `ThingSpeakError` at the first key
that is not a field of the channel. -/
def buildItems (ch : Channel) : List (List Char × List Char) → Except TSError (List (List Char))
  | [] => Except.ok []
  | p :: rest =>
    match get_field_id ch p.1 with
    | none => Except.error (TSError.unknownField ch.name p.1)
    | some fid =>
      match buildItems ch rest with
      | Except.error e => Except.error e
      | Except.ok items => Except.ok ((fid ++ '=' :: p.2) :: items)

/-- Python `'&'.join(data_items) if len(data_items) > 1 else data_items[0]`.
The `headD []` branch is unreachable in context: `data_items` is non-empty
whenever this line is reached. -/
def joinAmp (items : List (List Char)) : List Char :=
  if 1 < items.length then List.intercalate ['&'] items else items.headD []

/-- The `_HTTP_POST_TEMPLATE` of `_ProtoWeb` instantiated with the API host,
a write key and the query data (the `content_length` format argument of the
source is unused by the template). -/
def wrapHttp (writeKey text : List Char) : List Char :=
  toChars "GET /update?api_key=" ++ writeKey ++ '&' :: text ++
    toChars " HTTP/1.1\r\nHost: api.thingspeak.com\r\nConnection: close\r\n\r\n"

/-- `_ProtoWeb._make_http_data`: reject an empty measurement set, build one
`slot=value` item per entry (rejecting unknown fields), join with `&` and
wrap into the HTTP request template. Measurement values are modelled
already rendered to their decimal/string form (Python `format` applies
`str`). -/
def make_http_data (ch : Channel) (data : List (List Char × List Char)) :
    Except TSError (List Char) :=
  if data.length = 0 then Except.error (TSError.emptyMeasurementSet ch.name)
  else
    match buildItems ch data with
    | Except.error e => Except.error e
    | Except.ok items => Except.ok (wrapHttp ch.write_key (joinAmp items))

/-- `_API_DNS_LOOKUP_INTERVAL_SEC = 60 * 60`. -/
def API_DNS_LOOKUP_INTERVAL_SEC : Nat := 60 * 60

/-- The DNS-cache state of a `_ProtoWeb` instance:
`_next_dns_lookup_timestamp` (initially 0) and the cached `_address_info`
(initially absent). A resolved address is modelled as a `Nat` code. -/
structure DnsState where
  nextDnsLookup : Nat
  addressInfo : Option Nat
  deriving DecidableEq, Repr

/-- `_ProtoWeb._resolve_ip` at wall-clock time `now`, with `r` the resolver
oracle (`socket.getaddrinfo` as a function of the lookup time): when the
cache has expired, look up, cache the result and push the deadline one TTL
ahead; otherwise keep the state. Returns the new state and whether a
lookup was performed. -/
def resolve_ip (r : Nat → Nat) (st : DnsState) (now : Nat) : DnsState × Bool :=
  if st.nextDnsLookup ≤ now then
    ({ nextDnsLookup := now + API_DNS_LOOKUP_INTERVAL_SEC, addressInfo := some (r now) }, true)
  else
    (st, false)

/-- Observable network events of one `_ProtoWeb.send` call. -/
inductive Ev where
  | dns
  | connect
  | write
  | close
  deriving DecidableEq, Repr

/-- `_ProtoWeb.send`: resolve (possibly cached), create and connect the
socket, build the request (validation errors raised here propagate), write
it and read the reply (`exchange = none` models a network failure raised by
`_send_to_socket`, which skips the close), close the socket, and parse the
reply. Returns the updated DNS state, the event trace in order, and the
result. -/
def protoSend (st : DnsState) (now : Nat) (r : Nat → Nat) (ch : Channel)
    (values : List (List Char × List Char)) (exchange : Option (List Char)) :
    DnsState × List Ev × Except TSError Int :=
  let res := resolve_ip r st now
  let evs := (if res.2 then [Ev.dns] else []) ++ [Ev.connect]
  match make_http_data ch values with
  | Except.error e => (res.1, evs, Except.error e)
  | Except.ok _ =>
    match exchange with
    | none => (res.1, evs ++ [Ev.write], Except.error TSError.transportError)
    | some reply => (res.1, evs ++ [Ev.write, Ev.close], Except.ok (parse_reply reply))

/-- `_FREE_API_LIMIT_SEC = 16`. -/
def FREE_API_LIMIT_SEC : ℚ := 16

/-- `_API_ALL_DEVICES_POSTING_LIMIT_SEC = 10.512`. -/
def API_ALL_DEVICES_POSTING_LIMIT_SEC : ℚ := 10.512

/-- The state of a `ThingSpeakAPI` instance: the channel list it was built
from (its registry dict maps each name to the last channel of that name),
the `_api_time_limit_sec` computed at construction, the mutable
`_free_api_delay`, and the protocol instance's DNS state. -/
structure TSState where
  channels : List Channel
  apiTimeLimit : ℚ
  freeApiDelay : ℚ
  proto : DnsState
  deriving DecidableEq, Repr

/-- `ThingSpeakAPI.__init__`: build the registry, compute
`_api_time_limit_sec = max(10.512 * len(channels), 16)` once, and start
with `_free_api_delay = 0` and a fresh protocol instance. -/
def mkThingSpeakAPI (channels : List Channel) : TSState :=
  { channels := channels
    apiTimeLimit := max (API_ALL_DEVICES_POSTING_LIMIT_SEC * channels.length) FREE_API_LIMIT_SEC
    freeApiDelay := 0
    proto := { nextDnsLookup := 0, addressInfo := none } }

/-- `ThingSpeakAPI._get_channel` via the registry dict
`{channel.name: channel for channel in channels}` (a later duplicate name
wins): the last channel with the given name, or `none`, which the source
turns into a raised `ThingSpeakError`. -/
def get_channel (cs : List Channel) (name : List Char) : Option Channel :=
  cs.reverse.find? (fun c => c.name == name)

/-- `ThingSpeakAPI.send`: look the channel up (raising `UnknownChannel`
before the protocol object is invoked, since the argument is evaluated
first), run the protocol send, and on a normal return set
`_free_api_delay`: to `max(0, _api_time_limit_sec - execution_sec)` and
return `True` when the count is not `-1`, to `0` and `False` otherwise.
`elapsedMs` is the measured `ticks_diff(ticks_ms(), start)` of the call;
`execution_sec` divides it by 1000. On a raised error the state reflects
exactly the mutations made before the raise. -/
def tsSend (s : TSState) (name : List Char) (values : List (List Char × List Char))
    (now : Nat) (elapsedMs : Nat) (r : Nat → Nat) (exchange : Option (List Char)) :
    TSState × List Ev × Except TSError Bool :=
  match get_channel s.channels name with
  | none => (s, [], Except.error (TSError.unknownChannel name))
  | some ch =>
    let res := protoSend s.proto now r ch values exchange
    let s1 := { s with proto := res.1 }
    match res.2.2 with
    | Except.error e => (s1, res.2.1, Except.error e)
    | Except.ok count =>
      if count ≠ -1 then
        ({ s1 with freeApiDelay := max 0 (s.apiTimeLimit - (elapsedMs : ℚ) / 1000) },
          res.2.1, Except.ok true)
      else
        ({ s1 with freeApiDelay := 0 }, res.2.1, Except.ok false)

/-- The DNS cache behavior of a sequence of `send` calls on one protocol
instance, at the given wall-clock times: each call runs `_resolve_ip` once;
the trace records, per call, whether a lookup was performed and the cached
address after the call. -/
def runCalls (r : Nat → Nat) (st : DnsState) : List Nat → List (Bool × Option Nat)
  | [] => []
  | t :: ts =>
    let res := resolve_ip r st t
    (res.2, res.1.addressInfo) :: runCalls r res.1 ts

/-- Modelled from the spec: a lookup is performed on a call exactly when the
TTL has elapsed since the previous lookup (initially the cache is expired,
so the first call always looks up); between refreshes the address cached at
the last lookup is reused. `last` is the time of the most recent lookup. -/
def dnsSpecRun (r : Nat → Nat) (last : Option Nat) : List Nat → List (Bool × Option Nat)
  | [] => []
  | t :: ts =>
    let doLookup : Bool :=
      match last with
      | none => true
      | some l => decide (API_DNS_LOOKUP_INTERVAL_SEC ≤ t - l)
    let last2 := if doLookup then some t else last
    (doLookup, last2.map r) :: dnsSpecRun r last2 ts

/-- Concrete fixture: the channel of the spec's end-to-end example. -/
def chW : Channel :=
  { name := toChars "Lab", write_key := toChars "K1",
    fieldNames := [toChars "Temp", toChars "Humidity"] }

/-- Concrete fixture: a valid two-entry measurement set for `chW`. -/
def dataW : List (List Char × List Char) :=
  [(toChars "Temp", toChars "21.5"), (toChars "Humidity", toChars "40")]

/-- Concrete fixture: a measurement set with one valid and one unknown key. -/
def dataBadW : List (List Char × List Char) :=
  [(toChars "Temp", toChars "1"), (toChars "Bogus", toChars "2")]

/-- Concrete fixture: a client over the single channel `chW`. -/
def tsW : TSState := mkThingSpeakAPI [chW]

/-- Concrete fixture: a resolver oracle returning a fixed address code. -/
def rW : Nat → Nat := fun _ => 7

/-- Concrete fixture: the spec's example success reply. -/
def replyOkW : List Char := toChars "HTTP/1.1 200 OK\r\n\r\n42"

/-- Concrete fixture: a fresh protocol DNS state. -/
def dnsW : DnsState := { nextDnsLookup := 0, addressInfo := none }

end ThingSpeak

namespace ThingSpeak

/-! Helper lemmas shared by the claim theorems. -/

theorem lastIndexOf_eq_none_iff (f : List Char) (l : List (List Char)) :
    lastIndexOf f l = none ↔ f ∉ l := by
  induction l with
  | nil => simp [lastIndexOf]
  | cons x xs ih =>
    unfold lastIndexOf
    cases h : lastIndexOf f xs with
    | some i =>
      have hmem : f ∈ xs := by
        by_contra hc
        rw [← ih] at hc
        simp [h] at hc
      simp [hmem]
    | none =>
      have hnot : f ∉ xs := (ih).mp h
      by_cases hx : x = f
      · simp [hx]
      · simp [hx, hnot, Ne.symm hx]

theorem lastIndexOf_isSome_of_mem (f : List Char) (l : List (List Char)) (h : f ∈ l) :
    ∃ i, lastIndexOf f l = some i := by
  cases hl : lastIndexOf f l with
  | none => exact absurd ((lastIndexOf_eq_none_iff f l).mp hl) (by simp [h])
  | some i => exact ⟨i, rfl⟩

theorem lastIndexOf_get (l : List (List Char)) (hnd : l.Nodup) (i : Nat)
    (h : i < l.length) : lastIndexOf (l.get ⟨i, h⟩) l = some i := by
  induction l generalizing i with
  | nil => simp at h
  | cons x xs ih =>
    rcases List.nodup_cons.mp hnd with ⟨hx, hxs⟩
    cases i with
    | zero =>
      have : lastIndexOf x xs = none := (lastIndexOf_eq_none_iff x xs).mpr hx
      simp [lastIndexOf, this]
    | succ j =>
      have hj : j < xs.length := Nat.lt_of_succ_lt_succ h
      have hlast := ih hxs j hj
      simp only [List.get_eq_getElem] at hlast ⊢
      simp [lastIndexOf, hlast]

theorem buildItems_ok (ch : Channel) (data : List (List Char × List Char))
    (hkeys : ∀ p ∈ data, p.1 ∈ ch.fieldNames) :
    buildItems ch data =
      Except.ok (data.map (fun p => (get_field_id ch p.1).getD [] ++ '=' :: p.2)) := by
  induction data with
  | nil => rfl
  | cons p rest ih =>
    have hp : p.1 ∈ ch.fieldNames := hkeys p (by simp)
    obtain ⟨i, hi⟩ := lastIndexOf_isSome_of_mem _ _ hp
    have hrest := ih (fun q hq => hkeys q (List.mem_cons_of_mem _ hq))
    simp [buildItems, get_field_id, hi, hrest]

theorem buildItems_error (ch : Channel) (data : List (List Char × List Char))
    (hbad : ∃ p ∈ data, p.1 ∉ ch.fieldNames) :
    ∃ f, f ∉ ch.fieldNames ∧
      buildItems ch data = Except.error (TSError.unknownField ch.name f) := by
  induction data with
  | nil => simp at hbad
  | cons p rest ih =>
    by_cases hp : p.1 ∈ ch.fieldNames
    · obtain ⟨i, hi⟩ := lastIndexOf_isSome_of_mem _ _ hp
      have hbad' : ∃ q ∈ rest, q.1 ∉ ch.fieldNames := by
        rcases hbad with ⟨q, hq, hqn⟩
        rcases List.mem_cons.mp hq with h | h
        · exact absurd hp (h ▸ hqn)
        · exact ⟨q, h, hqn⟩
      obtain ⟨f, hf, he⟩ := ih hbad'
      exact ⟨f, hf, by simp [buildItems, get_field_id, hi, he]⟩
    · have hnone : lastIndexOf p.1 ch.fieldNames = none :=
        (lastIndexOf_eq_none_iff _ _).mpr hp
      exact ⟨p.1, hp, by simp [buildItems, get_field_id, hnone]⟩

theorem joinAmp_of_ne_nil (items : List (List Char)) (h : items ≠ []) :
    joinAmp items = List.intercalate ['&'] items := by
  match items with
  | [x] => simp [joinAmp, List.intercalate]
  | x :: y :: rest =>
    have hlen : 1 < (x :: y :: rest).length := by
      simp [List.length_cons]
    simp [joinAmp, hlen]

/-- C4: for every channel with a duplicate-free declared field list and
every non-empty measurement set whose keys are all fields of that channel,
`make_http_data` succeeds and its query string is exactly one `slot=value`
pair per entry, joined by `&`; and the slot assigned to the field declared
at 0-based position `i` is the string `field` followed by `i + 1`. -/
theorem make_http_data_valid (ch : Channel) (data : List (List Char × List Char))
    (hne : data ≠ [])
    (hnd : ch.fieldNames.Nodup)
    (hkeys : ∀ p ∈ data, p.1 ∈ ch.fieldNames) :
    make_http_data ch data = Except.ok (wrapHttp ch.write_key
      (List.intercalate ['&']
        (data.map (fun p => (get_field_id ch p.1).getD [] ++ '=' :: p.2)))) ∧
    (∀ i (h : i < ch.fieldNames.length),
      get_field_id ch (ch.fieldNames.get ⟨i, h⟩) = some (fieldSlot i)) := by
  constructor
  · have hb := buildItems_ok ch data hkeys
    have hlen : ¬ data.length = 0 := by
      simpa [List.length_eq_zero] using hne
    have hmap : data.map (fun p => (get_field_id ch p.1).getD [] ++ '=' :: p.2) ≠ [] := by
      simpa [List.map_eq_nil_iff] using hne
    simp [make_http_data, hlen, hb, joinAmp_of_ne_nil _ hmap]
  · intro i h
    have hlast := lastIndexOf_get ch.fieldNames hnd i h
    simp only [List.get_eq_getElem] at hlast
    simp [get_field_id, hlast]

/-- Witness for C4: the spec's end-to-end example channel and values. -/
theorem make_http_data_valid_witness :
    (dataW ≠ []) ∧ chW.fieldNames.Nodup ∧ (∀ p ∈ dataW, p.1 ∈ chW.fieldNames) ∧
    (make_http_data chW dataW = Except.ok (wrapHttp chW.write_key
      (List.intercalate ['&']
        (dataW.map (fun p => (get_field_id chW p.1).getD [] ++ '=' :: p.2)))) ∧
     (∀ i (h : i < chW.fieldNames.length),
       get_field_id chW (chW.fieldNames.get ⟨i, h⟩) = some (fieldSlot i))) :=
  ⟨by decide, by decide, by decide,
    make_http_data_valid chW dataW (by decide) (by decide) (by decide)⟩

/-- C5: `make_http_data` fails exactly on invalid input: an empty mapping
yields `EmptyMeasurementSet` for every channel; any key absent from the
channel's fields yields `UnknownField` naming an absent key, however many
other keys are valid; and a non-empty mapping whose keys are all fields of
the channel succeeds. -/
theorem make_http_data_error_characterization :
    (∀ ch : Channel,
      make_http_data ch [] = Except.error (TSError.emptyMeasurementSet ch.name)) ∧
    (∀ (ch : Channel) (data : List (List Char × List Char)),
      (∃ p ∈ data, p.1 ∉ ch.fieldNames) →
      ∃ f, f ∉ ch.fieldNames ∧
        make_http_data ch data = Except.error (TSError.unknownField ch.name f)) ∧
    (∀ (ch : Channel) (data : List (List Char × List Char)),
      data ≠ [] → (∀ p ∈ data, p.1 ∈ ch.fieldNames) →
      ∃ req, make_http_data ch data = Except.ok req) := by
  refine ⟨fun ch => rfl, ?_, ?_⟩
  · intro ch data hbad
    obtain ⟨f, hf, he⟩ := buildItems_error ch data hbad
    have hne : data ≠ [] := by
      rcases hbad with ⟨p, hp, -⟩
      exact List.ne_nil_of_mem hp
    have hlen : ¬ data.length = 0 := by
      simpa [List.length_eq_zero] using hne
    exact ⟨f, hf, by simp [make_http_data, hlen, he]⟩
  · intro ch data hne hkeys
    have hlen : ¬ data.length = 0 := by
      simpa [List.length_eq_zero] using hne
    refine ⟨wrapHttp ch.write_key
      (joinAmp (data.map (fun p => (get_field_id ch p.1).getD [] ++ '=' :: p.2))), ?_⟩
    simp [make_http_data, hlen, buildItems_ok ch data hkeys]

/-- Witness for C5: a set with one unknown key next to a valid one is
rejected with `UnknownField`. -/
theorem make_http_data_error_characterization_witness :
    (∃ p ∈ dataBadW, p.1 ∉ chW.fieldNames) ∧
    (∃ f, f ∉ chW.fieldNames ∧
      make_http_data chW dataBadW = Except.error (TSError.unknownField chW.name f)) :=
  ⟨by decide, make_http_data_error_characterization.2.1 chW dataBadW (by decide)⟩

/-- Counterexample for C1: the reply has a status line whose status token
`AB` is not `200`, so the claim requires `-1`; the code hits the
`ValueError` handler while parsing the status and returns `0` instead. -/
theorem parse_reply_nonint_status_cex :
    statusTok (toChars "HTTP/1.1 AB\r\n\r\n7") = some (toChars "AB") ∧
    parse_reply (toChars "HTTP/1.1 AB\r\n\r\n7") = 0 ∧
    parse_reply (toChars "HTTP/1.1 AB\r\n\r\n7") ≠ -1 := by
  refine ⟨by decide, by decide, by decide⟩

/-- C1 (amended): `parse_reply` returns the parsed integer body when the
status token parses as the integer 200 and the body is a valid integer;
`0` when the status token parses as 200 and the body is not a valid
integer, and also when a status token is present but is itself not a valid
integer; and `-1` when the status token parses as a non-200 integer or the
first line has no status token (structurally malformed reply). -/
theorem parse_reply_cases (reply : List Char) :
    (statusTok reply = none → parse_reply reply = -1) ∧
    (∀ tok, statusTok reply = some tok → pyInt tok = none →
      parse_reply reply = 0) ∧
    (∀ tok st, statusTok reply = some tok → pyInt tok = some st → st ≠ 200 →
      parse_reply reply = -1) ∧
    (∀ tok n, statusTok reply = some tok → pyInt tok = some 200 →
      pyInt (bodyTok reply) = some n → parse_reply reply = n) ∧
    (∀ tok, statusTok reply = some tok → pyInt tok = some 200 →
      pyInt (bodyTok reply) = none → parse_reply reply = 0) := by
  refine ⟨?_, ?_, ?_, ?_, ?_⟩
  · intro h
    simp [parse_reply, parseReplyTry, h]
  · intro tok h1 h2
    simp [parse_reply, parseReplyTry, h1, h2]
  · intro tok st h1 h2 h3
    simp [parse_reply, parseReplyTry, h1, h2, h3]
  · intro tok n h1 h2 h3
    simp [parse_reply, parseReplyTry, h1, h2, h3]
  · intro tok h1 h2 h3
    simp [parse_reply, parseReplyTry, h1, h2, h3]

/-- Witness for C1 (amended): the spec's success example reply. -/
theorem parse_reply_cases_witness :
    statusTok (toChars "HTTP/1.1 200 OK\r\n\r\n42") = some (toChars "200") ∧
    pyInt (toChars "200") = some 200 ∧
    pyInt (bodyTok (toChars "HTTP/1.1 200 OK\r\n\r\n42")) = some 42 ∧
    parse_reply (toChars "HTTP/1.1 200 OK\r\n\r\n42") = 42 :=
  ⟨by decide, by decide, by decide,
    (parse_reply_cases (toChars "HTTP/1.1 200 OK\r\n\r\n42")).2.2.2.1
      (toChars "200") 42 (by decide) (by decide) (by decide)⟩

/-- C9: response parsing is total — `parse_reply` is a total function on
byte strings (every exception of the source is caught), and its result is
always `-1`, `0`, or the integer parsed from the text after the last
header/body separator. -/
theorem parse_reply_total_range (reply : List Char) :
    parse_reply reply = -1 ∨ parse_reply reply = 0 ∨
      pyInt (bodyTok reply) = some (parse_reply reply) := by
  cases h1 : statusTok reply with
  | none => exact Or.inl (by simp [parse_reply, parseReplyTry, h1])
  | some tok =>
    cases h2 : pyInt tok with
    | none => exact Or.inr (Or.inl (by simp [parse_reply, parseReplyTry, h1, h2]))
    | some st =>
      by_cases h3 : st = 200
      · subst h3
        cases h4 : pyInt (bodyTok reply) with
        | none =>
          exact Or.inr (Or.inl (by simp [parse_reply, parseReplyTry, h1, h2, h4]))
        | some n =>
          exact Or.inr (Or.inr (by simp [parse_reply, parseReplyTry, h1, h2, h4]))
      · exact Or.inl (by simp [parse_reply, parseReplyTry, h1, h2, h3])

theorem runCalls_spec_some (r : Nat → Nat) (ts : List Nat) (l : Nat) :
    runCalls r
      { nextDnsLookup := l + API_DNS_LOOKUP_INTERVAL_SEC, addressInfo := some (r l) } ts =
      dnsSpecRun r (some l) ts := by
  induction ts generalizing l with
  | nil => rfl
  | cons t ts ih =>
    have hTTL : API_DNS_LOOKUP_INTERVAL_SEC = 3600 := rfl
    by_cases h : l + API_DNS_LOOKUP_INTERVAL_SEC ≤ t
    · have h2 : API_DNS_LOOKUP_INTERVAL_SEC ≤ t - l := by omega
      simp [runCalls, dnsSpecRun, resolve_ip, h, h2, ih t]
    · have h2 : ¬ API_DNS_LOOKUP_INTERVAL_SEC ≤ t - l := by omega
      simp [runCalls, dnsSpecRun, resolve_ip, h, h2, ih l]

/-- C8: across every sequence of calls on one protocol instance, a DNS
lookup happens on a call exactly when the 3600-second TTL has elapsed since
the previous lookup (the cache starts expired, so the first call always
looks up), and between refreshes the address cached at the last lookup is
reused unchanged; moreover each `protoSend` updates the DNS state exactly
as one `_resolve_ip` call does, and its trace records a DNS lookup exactly
when `_resolve_ip` performs one. -/
theorem dns_cache_policy :
    (∀ (r : Nat → Nat) (ts : List Nat),
      runCalls r { nextDnsLookup := 0, addressInfo := none } ts = dnsSpecRun r none ts) ∧
    (∀ st now (r : Nat → Nat) ch values exchange,
      (protoSend st now r ch values exchange).1 = (resolve_ip r st now).1 ∧
      (Ev.dns ∈ (protoSend st now r ch values exchange).2.1 ↔
        (resolve_ip r st now).2 = true)) := by
  constructor
  · intro r ts
    cases ts with
    | nil => rfl
    | cons t ts =>
      have h0 : (0 : Nat) ≤ t := Nat.zero_le t
      simp [runCalls, dnsSpecRun, resolve_ip, h0, runCalls_spec_some r ts t]
  · intro st now r ch values exchange
    constructor
    · cases hm : make_http_data ch values with
      | error e => simp [protoSend, hm]
      | ok d => cases exchange <;> simp [protoSend, hm]
    · cases hr : (resolve_ip r st now).2 with
      | false =>
        cases hm : make_http_data ch values with
        | error e => simp [protoSend, hm, hr]
        | ok d => cases exchange <;> simp [protoSend, hm, hr]
      | true =>
        cases hm : make_http_data ch values with
        | error e => simp [protoSend, hm, hr]
        | ok d => cases exchange <;> simp [protoSend, hm, hr]

/-- C6: the per-channel time limit is computed at construction as
`max(freeApiFloorSeconds, perDeviceIntervalSeconds * channelCount)` with
floor 16 and interval 10.512; in particular it is 16 for 0 or 1 channels
and `10.512 * n` for `n ≥ 2` channels. -/
theorem api_time_limit_formula (channels : List Channel) :
    (mkThingSpeakAPI channels).apiTimeLimit =
      max FREE_API_LIMIT_SEC (API_ALL_DEVICES_POSTING_LIMIT_SEC * channels.length) ∧
    FREE_API_LIMIT_SEC = 16 ∧ API_ALL_DEVICES_POSTING_LIMIT_SEC = 10.512 ∧
    (channels.length ≤ 1 → (mkThingSpeakAPI channels).apiTimeLimit = 16) ∧
    (2 ≤ channels.length →
      (mkThingSpeakAPI channels).apiTimeLimit = 10.512 * channels.length) := by
  refine ⟨?_, rfl, rfl, ?_, ?_⟩
  · simp [mkThingSpeakAPI, max_comm]
  · intro h
    have hc : (channels.length : ℚ) ≤ 1 := by exact_mod_cast h
    have hle : API_ALL_DEVICES_POSTING_LIMIT_SEC * channels.length ≤ FREE_API_LIMIT_SEC := by
      unfold API_ALL_DEVICES_POSTING_LIMIT_SEC FREE_API_LIMIT_SEC
      nlinarith
    show max (API_ALL_DEVICES_POSTING_LIMIT_SEC * channels.length) FREE_API_LIMIT_SEC = 16
    rw [max_eq_right hle]
    rfl
  · intro h
    have hc : (2 : ℚ) ≤ channels.length := by exact_mod_cast h
    have hle : FREE_API_LIMIT_SEC ≤ API_ALL_DEVICES_POSTING_LIMIT_SEC * channels.length := by
      unfold API_ALL_DEVICES_POSTING_LIMIT_SEC FREE_API_LIMIT_SEC
      nlinarith
    show max (API_ALL_DEVICES_POSTING_LIMIT_SEC * channels.length) FREE_API_LIMIT_SEC =
      10.512 * channels.length
    rw [max_eq_left hle]
    rfl

/-- Witness for C6: two channels give the limit `10.512 * 2`. -/
theorem api_time_limit_formula_witness :
    (2 ≤ ([chW, chW] : List Channel).length) ∧
    (mkThingSpeakAPI [chW, chW]).apiTimeLimit =
      10.512 * (([chW, chW] : List Channel).length : ℚ) :=
  ⟨by decide, (api_time_limit_formula [chW, chW]).2.2.2.2 (by decide)⟩

/-- Counterexample for C2: with a fresh protocol instance and an empty
measurement set, the validation error is raised — but the trace of the call
already holds the DNS lookup and the connection, so the claim's
"no DNS lookup, no connection occurs when validation fails" is false. -/
theorem validation_after_connect_cex :
    (protoSend dnsW 0 rW chW [] none).2.2 =
      Except.error (TSError.emptyMeasurementSet chW.name) ∧
    (protoSend dnsW 0 rW chW [] none).2.1 = [Ev.dns, Ev.connect] := by
  exact ⟨rfl, rfl⟩

/-- C2 (amended): when the measurement set is invalid (`make_http_data`
raises `EmptyMeasurementSet` or `UnknownField`), the error propagates out
of the protocol send and is raised before the request is written — the
trace contains no write — but only after connection setup (and the DNS
lookup, when one is due), which the source performs first. -/
theorem validation_error_no_write (st : DnsState) (now : Nat) (r : Nat → Nat)
    (ch : Channel) (values : List (List Char × List Char))
    (exchange : Option (List Char)) (e : TSError)
    (h : make_http_data ch values = Except.error e) :
    (protoSend st now r ch values exchange).2.2 = Except.error e ∧
    Ev.write ∉ (protoSend st now r ch values exchange).2.1 ∧
    Ev.connect ∈ (protoSend st now r ch values exchange).2.1 := by
  cases hr : (resolve_ip r st now).2 <;> simp [protoSend, h, hr]

/-- Witness for C2 (amended): the empty measurement set on a fresh client. -/
theorem validation_error_no_write_witness :
    make_http_data chW [] = Except.error (TSError.emptyMeasurementSet chW.name) ∧
    ((protoSend dnsW 0 rW chW [] none).2.2 =
        Except.error (TSError.emptyMeasurementSet chW.name) ∧
      Ev.write ∉ (protoSend dnsW 0 rW chW [] none).2.1 ∧
      Ev.connect ∈ (protoSend dnsW 0 rW chW [] none).2.1) :=
  ⟨rfl, validation_error_no_write dnsW 0 rW chW [] none _ rfl⟩

/-- C3: for every send call that completes normally, when the parsed
measurement count is not -1 the call returns true and the delay accessor
afterwards yields `max(0, perChannelTimeLimit - elapsedSeconds)`, which is
nonnegative; when the count is -1 the call returns false and the delay
accessor afterwards yields exactly 0. -/
theorem tsSend_delay (s : TSState) (name : List Char)
    (values : List (List Char × List Char)) (now elapsedMs : Nat) (r : Nat → Nat)
    (exchange : Option (List Char)) (ch : Channel) (count : Int)
    (hch : get_channel s.channels name = some ch)
    (hp : (protoSend s.proto now r ch values exchange).2.2 = Except.ok count) :
    (count ≠ -1 →
      (tsSend s name values now elapsedMs r exchange).2.2 = Except.ok true ∧
      (tsSend s name values now elapsedMs r exchange).1.freeApiDelay =
        max 0 (s.apiTimeLimit - (elapsedMs : ℚ) / 1000) ∧
      0 ≤ (tsSend s name values now elapsedMs r exchange).1.freeApiDelay) ∧
    (count = -1 →
      (tsSend s name values now elapsedMs r exchange).2.2 = Except.ok false ∧
      (tsSend s name values now elapsedMs r exchange).1.freeApiDelay = 0) := by
  constructor
  · intro hc
    simp [tsSend, hch, hp, hc, le_max_left]
  · intro hc
    simp [tsSend, hch, hp, hc]

/-- Witness for C3: a successful exchange with the spec's example reply,
elapsed 2000 ms, one configured channel. -/
theorem tsSend_delay_witness :
    get_channel tsW.channels (toChars "Lab") = some chW ∧
    (protoSend tsW.proto 0 rW chW dataW (some replyOkW)).2.2 = Except.ok 42 ∧
    (((42 : Int) ≠ -1 →
      (tsSend tsW (toChars "Lab") dataW 0 2000 rW (some replyOkW)).2.2 = Except.ok true ∧
      (tsSend tsW (toChars "Lab") dataW 0 2000 rW (some replyOkW)).1.freeApiDelay =
        max 0 (tsW.apiTimeLimit - (2000 : ℚ) / 1000) ∧
      0 ≤ (tsSend tsW (toChars "Lab") dataW 0 2000 rW (some replyOkW)).1.freeApiDelay) ∧
    ((42 : Int) = -1 →
      (tsSend tsW (toChars "Lab") dataW 0 2000 rW (some replyOkW)).2.2 = Except.ok false ∧
      (tsSend tsW (toChars "Lab") dataW 0 2000 rW (some replyOkW)).1.freeApiDelay = 0)) :=
  ⟨by decide, rfl,
    tsSend_delay tsW (toChars "Lab") dataW 0 2000 rW (some replyOkW) chW 42
      (by decide) rfl⟩

/-- C7: for every channel name not present in the registry and every
measurement set, `send` fails with `UnknownChannel`, performs no network
event, and leaves the whole state unchanged. -/
theorem tsSend_unknown_channel (s : TSState) (name : List Char)
    (values : List (List Char × List Char)) (now elapsedMs : Nat) (r : Nat → Nat)
    (exchange : Option (List Char))
    (h : ∀ c ∈ s.channels, c.name ≠ name) :
    tsSend s name values now elapsedMs r exchange =
      (s, [], Except.error (TSError.unknownChannel name)) := by
  have hg : get_channel s.channels name = none := by
    apply List.find?_eq_none.mpr
    intro c hc
    have hc2 : c ∈ s.channels := List.mem_reverse.mp hc
    simpa using h c hc2
  simp [tsSend, hg]

/-- Witness for C7: the name `bad` is not registered on `tsW`. -/
theorem tsSend_unknown_channel_witness :
    (∀ c ∈ tsW.channels, c.name ≠ toChars "bad") ∧
    tsSend tsW (toChars "bad") dataW 0 0 rW none =
      (tsW, [], Except.error (TSError.unknownChannel (toChars "bad"))) :=
  ⟨by decide, tsSend_unknown_channel tsW (toChars "bad") dataW 0 0 rW none (by decide)⟩

/-- C10: whenever `send` raises an error instead of returning a boolean —
unknown channel, empty measurement set, unknown field, or transport
failure — the stored delay is exactly what it was before the call: the
delay is written only on the two normal-return paths. -/
theorem tsSend_error_preserves_delay (s : TSState) (name : List Char)
    (values : List (List Char × List Char)) (now elapsedMs : Nat) (r : Nat → Nat)
    (exchange : Option (List Char)) (e : TSError)
    (h : (tsSend s name values now elapsedMs r exchange).2.2 = Except.error e) :
    (tsSend s name values now elapsedMs r exchange).1.freeApiDelay = s.freeApiDelay := by
  cases hg : get_channel s.channels name with
  | none => simp [tsSend, hg]
  | some ch =>
    cases hp : (protoSend s.proto now r ch values exchange).2.2 with
    | error e2 => simp [tsSend, hg, hp]
    | ok count =>
      exfalso
      by_cases hc : count = -1 <;> simp [tsSend, hg, hp, hc] at h

/-- Witness for C10: an unknown-channel error leaves the delay at its
prior value. -/
theorem tsSend_error_preserves_delay_witness :
    (tsSend tsW (toChars "bad") dataW 0 0 rW none).2.2 =
      Except.error (TSError.unknownChannel (toChars "bad")) ∧
    (tsSend tsW (toChars "bad") dataW 0 0 rW none).1.freeApiDelay = tsW.freeApiDelay :=
  ⟨rfl,
    tsSend_error_preserves_delay tsW (toChars "bad") dataW 0 0 rW none
      (TSError.unknownChannel (toChars "bad")) rfl⟩

end ThingSpeak
